import Mathlib

/-!
Shallow embedding of `venus-acout2-relay-control.py`.

The engine `ACOut2Override` is a two-state machine (`off`, `on`) driven by the
`poll` event, with guards `ACOut_allowed` (for `switchOn`) and `ACOut_notallowed`
(for `switchOff`).  Floating-point quantities of the source (`SOC`, `DCPower`,
the power thresholds and hysteresis offsets) are embedded as rationals `ℚ`; the
claims under verification are threshold comparisons and state logic, not
floating-point rounding.  The relay callback is modelled as an emitted trace of
booleans (`true` = close relay, `false` = open relay).
-/

/-- `mean` (source lines 29-33): arithmetic mean of the buffer contents,
returning `0.0` when the buffer is empty. -/
def mean (data : List ℚ) : ℚ :=
  if data.length = 0 then 0 else data.sum / (data.length : ℚ)

/-- `ACOut2OverrideSettings` (source lines 35-41).  The source spells
hysteresis as `Histeresis`; the field names are kept verbatim.
`DCPowerPeriodCount` is the rolling-window size. -/
structure ACOut2OverrideSettings where
  MaxDCPower : ℚ
  MaxDCPowerSOC : ℚ
  DCPowerPeriodCount : Int
  MinSOC : ℚ
  SOCHisteresis : ℚ
  DCPowerHisteresis : ℚ
deriving DecidableEq

/-- `ACOut2OverrideParameters` (source lines 43-46): the measurement
snapshot. -/
structure ACOut2OverrideParameters where
  SOC : ℚ
  DCPower : ℚ
  ACSource : Int
deriving DecidableEq

/-- The two states of the machine (source lines 66-68): `off` is initial. -/
inductive DecisionState where
  | off
  | on
deriving DecidableEq

/-- The engine's mutable state: settings, last parameter snapshot, the
DC-power deque contents (oldest first) and the current machine state. -/
structure ACOut2Override where
  settings : ACOut2OverrideSettings
  currentParameters : ACOut2OverrideParameters
  dcPowerBuffer : List ℚ
  state : DecisionState
deriving DecidableEq

/-- `collections.deque(..., maxlen=m).append(v)`: append on the right,
evicting from the left whatever exceeds the capacity `m`.  When the buffer is
at capacity this drops exactly the oldest entry; with `m = 0` every append is
discarded, as in Python. -/
def dequeAppend (maxlen : Nat) (buf : List ℚ) (v : ℚ) : List ℚ :=
  let b := buf ++ [v]
  if maxlen < b.length then b.drop (b.length - maxlen) else b

/-- The sentinel fill value `-99999.9` of the DC-power buffer
(source line 55). -/
def sentinelPower : ℚ := -999999 / 10

/-- `ACOut2Override.__init__` (source lines 50-59).  Python's
`collections.deque` raises `ValueError("maxlen must be non-negative")` for a
negative `maxlen`; `[-99999.9] * n` is empty for `n ≤ 0`.  On success the
constructor stores the default parameter snapshot `(0, 0, 1)`, fills the
buffer with `DCPowerPeriodCount` sentinels, calls `toggle_relay(False)` —
emitted here as the trace `[false]` — and starts in the initial state `off`
(source line 66). -/
def ACOut2Override.init (settings : ACOut2OverrideSettings) :
    Except String (ACOut2Override × List Bool) :=
  if settings.DCPowerPeriodCount < 0 then
    Except.error "maxlen must be non-negative"
  else
    Except.ok
      ({ settings := settings
         currentParameters := ⟨0, 0, 1⟩
         dcPowerBuffer :=
           List.replicate settings.DCPowerPeriodCount.toNat sentinelPower
         state := DecisionState.off },
       [false])

/-- `ACOut_allowed` (source lines 87-106): the guard of `switchOn`.
`source` and `target` are `event_data.source.id` and `event_data.target.id`;
when they agree this is the "stay `on`" check (no hysteresis), otherwise the
`off → on` change check: grid presence (`ACSource == 240`) is a hard veto,
and both thresholds carry their hysteresis offsets. -/
def ACOut2Override.ACOut_allowed (e : ACOut2Override)
    (source target : DecisionState) : Bool :=
  if source = target then
    if mean e.dcPowerBuffer > e.settings.MaxDCPower
        ∧ e.currentParameters.SOC > e.settings.MaxDCPowerSOC then
      true
    else
      decide (e.currentParameters.SOC > e.settings.MinSOC)
  else
    if e.currentParameters.ACSource = 240 then
      false
    else
      if mean e.dcPowerBuffer
            > e.settings.MaxDCPower + e.settings.DCPowerHisteresis
          ∧ e.currentParameters.SOC
            > e.settings.MaxDCPowerSOC + e.settings.SOCHisteresis then
        true
      else
        decide (e.currentParameters.SOC
          > e.settings.MinSOC + e.settings.SOCHisteresis)

/-- `ACOut_notallowed` (source lines 108-123): the guard of `switchOff`.
When `source = target` this is the "stay `off`" check with hysteresis
applied; otherwise the `on → off` change check without hysteresis. -/
def ACOut2Override.ACOut_notallowed (e : ACOut2Override)
    (source target : DecisionState) : Bool :=
  if source = target then
    if mean e.dcPowerBuffer
          ≤ e.settings.MaxDCPower + e.settings.DCPowerHisteresis
        ∨ e.currentParameters.SOC
          ≤ e.settings.MaxDCPowerSOC + e.settings.SOCHisteresis then
      true
    else
      decide (e.currentParameters.SOC
        ≤ e.settings.MinSOC + e.settings.SOCHisteresis)
  else
    if mean e.dcPowerBuffer ≤ e.settings.MaxDCPower
        ∨ e.currentParameters.SOC ≤ e.settings.MaxDCPowerSOC then
      true
    else
      decide (e.currentParameters.SOC ≤ e.settings.MinSOC)

/-- Modelled from the spec: the dispatch of the `poll` event.  The
`statemachine` library providing `StateMachine`/`State` is an external
dependency, not part of the repository; per the spec the event tries its
transitions in declaration order (`switchOn` then `switchOff`, source
lines 71-74), each guarded by its `cond`, and when neither condition holds
the event no-ops and the current state is held (spec §4.2 step 4).
`on_poll` (source lines 76-78) calls
`toggle_relay(event_data.target.id == onState.id)` only when
`source.id != target.id`; the relay commands are returned as a trace. -/
def ACOut2Override.poll (e : ACOut2Override) : ACOut2Override × List Bool :=
  if e.ACOut_allowed e.state DecisionState.on then
    ({ e with state := DecisionState.on },
      if e.state = DecisionState.on then [] else [true])
  else if e.ACOut_notallowed e.state DecisionState.off then
    ({ e with state := DecisionState.off },
      if e.state = DecisionState.off then [] else [false])
  else
    (e, [])

/-- The first two statements of `update_parameters` (source lines 126-127):
replace the parameter snapshot and append the new `DCPower` sample to the
deque. -/
def ACOut2Override.pushParameters (e : ACOut2Override)
    (p : ACOut2OverrideParameters) : ACOut2Override :=
  { e with
    currentParameters := p
    dcPowerBuffer :=
      dequeAppend e.settings.DCPowerPeriodCount.toNat e.dcPowerBuffer
        p.DCPower }

/-- `update_parameters` (source lines 125-128): store the snapshot, push the
sample, then fire `poll`. -/
def ACOut2Override.update_parameters (e : ACOut2Override)
    (p : ACOut2OverrideParameters) : ACOut2Override × List Bool :=
  (e.pushParameters p).poll

/-- Folding a sequence of `update_parameters` calls, keeping the engine. -/
def ACOut2Override.run (e : ACOut2Override)
    (ps : List ACOut2OverrideParameters) : ACOut2Override :=
  ps.foldl (fun a p => (a.update_parameters p).fst) e

/-- The CanBeOn guard stated from the spec's words (§4.2 rule 2): on a stay
check (`current = on`) no hysteresis; on a change check (`current = off`)
grid presence is a hard veto and both thresholds carry hysteresis.
`avgPower` is supplied by the caller. -/
def specCanBeOn (s : ACOut2OverrideSettings) (p : ACOut2OverrideParameters)
    (avgPower : ℚ) (current : DecisionState) : Bool :=
  match current with
  | DecisionState.on =>
      (decide (avgPower > s.MaxDCPower)
          && decide (p.SOC > s.MaxDCPowerSOC))
        || decide (p.SOC > s.MinSOC)
  | DecisionState.off =>
      if p.ACSource = 240 then
        false
      else
        (decide (avgPower > s.MaxDCPower + s.DCPowerHisteresis)
            && decide (p.SOC > s.MaxDCPowerSOC + s.SOCHisteresis))
          || decide (p.SOC > s.MinSOC + s.SOCHisteresis)

/-- The CanBeOff guard stated from the spec's words (§4.2 rule 3): on a stay
check (`current = off`) hysteresis is applied; on a change check
(`current = on`) it is not, and there is no grid veto. -/
def specCanBeOff (s : ACOut2OverrideSettings) (p : ACOut2OverrideParameters)
    (avgPower : ℚ) (current : DecisionState) : Bool :=
  match current with
  | DecisionState.off =>
      (decide (avgPower ≤ s.MaxDCPower + s.DCPowerHisteresis)
          || decide (p.SOC ≤ s.MaxDCPowerSOC + s.SOCHisteresis))
        || decide (p.SOC ≤ s.MinSOC + s.SOCHisteresis)
  | DecisionState.on =>
      (decide (avgPower ≤ s.MaxDCPower)
          || decide (p.SOC ≤ s.MaxDCPowerSOC))
        || decide (p.SOC ≤ s.MinSOC)

@[simp]
theorem pushParameters_settings (e : ACOut2Override)
    (p : ACOut2OverrideParameters) : (e.pushParameters p).settings = e.settings :=
  rfl

@[simp]
theorem pushParameters_state (e : ACOut2Override)
    (p : ACOut2OverrideParameters) : (e.pushParameters p).state = e.state :=
  rfl

@[simp]
theorem pushParameters_currentParameters (e : ACOut2Override)
    (p : ACOut2OverrideParameters) :
    (e.pushParameters p).currentParameters = p :=
  rfl

@[simp]
theorem pushParameters_dcPowerBuffer (e : ACOut2Override)
    (p : ACOut2OverrideParameters) :
    (e.pushParameters p).dcPowerBuffer
      = dequeAppend e.settings.DCPowerPeriodCount.toNat e.dcPowerBuffer
          p.DCPower :=
  rfl

theorem poll_dcPowerBuffer (e : ACOut2Override) :
    (e.poll).fst.dcPowerBuffer = e.dcPowerBuffer := by
  unfold ACOut2Override.poll
  split <;> [rfl; skip]
  split <;> rfl

theorem poll_settings (e : ACOut2Override) :
    (e.poll).fst.settings = e.settings := by
  unfold ACOut2Override.poll
  split <;> [rfl; skip]
  split <;> rfl

theorem update_parameters_dcPowerBuffer (e : ACOut2Override)
    (p : ACOut2OverrideParameters) :
    (e.update_parameters p).fst.dcPowerBuffer
      = dequeAppend e.settings.DCPowerPeriodCount.toNat e.dcPowerBuffer
          p.DCPower := by
  unfold ACOut2Override.update_parameters
  rw [poll_dcPowerBuffer]
  rfl

theorem update_parameters_settings (e : ACOut2Override)
    (p : ACOut2OverrideParameters) :
    (e.update_parameters p).fst.settings = e.settings := by
  unfold ACOut2Override.update_parameters
  rw [poll_settings]
  rfl

theorem dequeAppend_length (m : Nat) (buf : List ℚ) (v : ℚ)
    (h : buf.length = m) : (dequeAppend m buf v).length = m := by
  unfold dequeAppend
  simp only [List.length_append, List.length_cons, List.length_nil, h]
  split
  · simp only [List.length_drop, List.length_append, List.length_cons,
      List.length_nil, h]
    omega
  · omega

theorem ite_and_eq_andor (A B C : Prop) [Decidable A] [Decidable B]
    [Decidable C] :
    (if A ∧ B then true else decide C) = ((decide A && decide B) || decide C) := by
  by_cases h : A ∧ B
  · simp [h.1, h.2]
  · rw [if_neg h]
    by_cases hA : A
    · have hB : ¬B := fun hb => h ⟨hA, hb⟩
      simp [hA, hB]
    · simp [hA]

theorem ite_or_eq_oror (A B C : Prop) [Decidable A] [Decidable B]
    [Decidable C] :
    (if A ∨ B then true else decide C) = ((decide A || decide B) || decide C) := by
  by_cases h : A ∨ B
  · rcases h with h | h <;> simp [h]
  · obtain ⟨hA, hB⟩ := not_or.mp h
    rw [if_neg h]
    simp [hA, hB]

theorem ACOut_allowed_eq_spec (e : ACOut2Override) :
    e.ACOut_allowed e.state DecisionState.on
      = specCanBeOn e.settings e.currentParameters (mean e.dcPowerBuffer)
          e.state := by
  obtain ⟨s, pp, buf, st⟩ := e
  cases st
  · show (if (DecisionState.off = DecisionState.on) then _ else _) = _
    rw [if_neg (by simp)]
    show (if pp.ACSource = 240 then false else _)
      = (if pp.ACSource = 240 then false else _)
    by_cases hac : pp.ACSource = 240
    · rw [if_pos hac, if_pos hac]
    · rw [if_neg hac, if_neg hac, ite_and_eq_andor]
  · show (if (DecisionState.on = DecisionState.on) then _ else _) = _
    rw [if_pos rfl, ite_and_eq_andor]
    rfl

theorem ACOut_notallowed_eq_spec (e : ACOut2Override) :
    e.ACOut_notallowed e.state DecisionState.off
      = specCanBeOff e.settings e.currentParameters (mean e.dcPowerBuffer)
          e.state := by
  obtain ⟨s, pp, buf, st⟩ := e
  cases st
  · show (if (DecisionState.off = DecisionState.off) then _ else _) = _
    rw [if_pos rfl, ite_or_eq_oror]
    rfl
  · show (if (DecisionState.on = DecisionState.off) then _ else _) = _
    rw [if_neg (by simp), ite_or_eq_oror]
    rfl

/-- C2: the CanBeOn guard evaluated by `update_parameters` (on the engine
after the snapshot replacement and the `DCPower` push) computes exactly the
spec's formula: in state `on` the hysteresis-free stay check
`(avgPower > MaxDCPower ∧ SOC > MaxDCPowerSOC) ∨ SOC > MinSOC`; in state
`off` it is `false` as soon as `ACSource = 240`, else
`(avgPower > MaxDCPower + DCPowerHisteresis ∧
SOC > MaxDCPowerSOC + SOCHisteresis) ∨ SOC > MinSOC + SOCHisteresis`, where
`avgPower` is the mean of the window after the new sample was pushed. -/
theorem canBeOn_guard_matches_spec (e : ACOut2Override)
    (p : ACOut2OverrideParameters) :
    (e.pushParameters p).ACOut_allowed (e.pushParameters p).state
        DecisionState.on
      = specCanBeOn e.settings p (mean (e.pushParameters p).dcPowerBuffer)
          e.state
    ∧ e.update_parameters p = (e.pushParameters p).poll := by
  refine ⟨?_, rfl⟩
  have h := ACOut_allowed_eq_spec (e.pushParameters p)
  rw [pushParameters_state, pushParameters_settings,
    pushParameters_currentParameters] at h
  rw [pushParameters_state]
  exact h

/-- C3: the CanBeOff guard evaluated by `update_parameters` (on the engine
after the snapshot replacement and the `DCPower` push) computes exactly the
spec's formula: in state `off` the hysteresis-adjusted stay check
`avgPower ≤ MaxDCPower + DCPowerHisteresis ∨
SOC ≤ MaxDCPowerSOC + SOCHisteresis ∨ SOC ≤ MinSOC + SOCHisteresis`; in
state `on` the hysteresis-free change check
`avgPower ≤ MaxDCPower ∨ SOC ≤ MaxDCPowerSOC ∨ SOC ≤ MinSOC`, with no grid
veto. -/
theorem canBeOff_guard_matches_spec (e : ACOut2Override)
    (p : ACOut2OverrideParameters) :
    (e.pushParameters p).ACOut_notallowed (e.pushParameters p).state
        DecisionState.off
      = specCanBeOff e.settings p (mean (e.pushParameters p).dcPowerBuffer)
          e.state
    ∧ e.update_parameters p = (e.pushParameters p).poll := by
  refine ⟨?_, rfl⟩
  have h := ACOut_notallowed_eq_spec (e.pushParameters p)
  rw [pushParameters_state, pushParameters_settings,
    pushParameters_currentParameters] at h
  rw [pushParameters_state]
  exact h

/-- C6: during one `update_parameters` call the relay callback fires exactly
when the computed target state differs from the state before the call; the
argument passed is `true` exactly when the new state is `on` and `false`
exactly when it is `off`, and a confirm transition (target equal to the
previous state) fires the callback zero times. -/
theorem relay_callback_iff_state_change (e : ACOut2Override)
    (p : ACOut2OverrideParameters) :
    (e.update_parameters p).snd
      = if (e.update_parameters p).fst.state = e.state then []
        else [decide ((e.update_parameters p).fst.state = DecisionState.on)] := by
  unfold ACOut2Override.update_parameters ACOut2Override.poll
  cases hg1 : (e.pushParameters p).ACOut_allowed (e.pushParameters p).state
      DecisionState.on
  · cases hg2 : (e.pushParameters p).ACOut_notallowed
        (e.pushParameters p).state DecisionState.off
    · simp
    · cases hs : e.state <;> simp [hs]
  · cases hs : e.state <;> simp [hs]

/-- C4 counterexample: a window size of `0` is non-positive, yet construction
succeeds (Python's `deque([], maxlen=0)` is legal), producing an engine with
an empty buffer and the initial `[false]` relay trace — contradicting the
claim that every non-positive `DCPowerPeriodCount` fails construction. -/
theorem construction_zero_count_succeeds :
    ACOut2Override.init ⟨-250, 50, 0, 60, 3, 1000⟩
      = Except.ok
          ({ settings := ⟨-250, 50, 0, 60, 3, 1000⟩
             currentParameters := ⟨0, 0, 1⟩
             dcPowerBuffer := []
             state := DecisionState.off },
           [false]) := by
  rfl

/-- C4 amended: construction fails (Python raises
`ValueError("maxlen must be non-negative")` from the deque; the code defines
no `ConfigurationError` class) exactly when `DCPowerPeriodCount` is
negative; every window size `≥ 0` — including the degenerate `0` —
constructs successfully, and no other operation has an error condition. -/
theorem construction_fails_iff_negative_count (s : ACOut2OverrideSettings) :
    ACOut2Override.init s = Except.error "maxlen must be non-negative"
      ↔ s.DCPowerPeriodCount < 0 := by
  unfold ACOut2Override.init
  split
  · simp [*]
  · simp [*]

/-- C7: whenever construction succeeds, the engine has emitted exactly one
relay command, `false`, before any `update_parameters` call, and its initial
state is `off`. -/
theorem initial_relay_false (s : ACOut2OverrideSettings)
    (e : ACOut2Override) (out : List Bool)
    (h : ACOut2Override.init s = Except.ok (e, out)) :
    out = [false] ∧ e.state = DecisionState.off := by
  unfold ACOut2Override.init at h
  split at h
  · exact absurd h (by simp)
  · simp only [Except.ok.injEq, Prod.mk.injEq] at h
    obtain ⟨he, hout⟩ := h
    exact ⟨hout.symm, by rw [← he]⟩

/-- An engine as produced by a successful construction with the repository's
thresholds and a window of three samples. -/
def exampleSettings : ACOut2OverrideSettings := ⟨-250, 50, 3, 60, 3, 1000⟩

/-- The engine value `ACOut2Override.init exampleSettings` returns. -/
def exampleEngine : ACOut2Override :=
  { settings := exampleSettings
    currentParameters := ⟨0, 0, 1⟩
    dcPowerBuffer := List.replicate 3 sentinelPower
    state := DecisionState.off }

theorem initial_relay_false_witness :
    ([false] : List Bool) = [false]
    ∧ exampleEngine.state = DecisionState.off :=
  initial_relay_false exampleSettings exampleEngine [false] rfl

/-- C1: when neither the `switchOn` guard nor the `switchOff` guard holds on
the engine after the snapshot replacement and the sample push,
`update_parameters` completes normally: the state is retained and no relay
command is emitted (the hold-state dispatch is modelled from the spec, the
state-machine library being external to the repository). -/
theorem update_holds_state_when_no_guard (e : ACOut2Override)
    (p : ACOut2OverrideParameters)
    (hOn : (e.pushParameters p).ACOut_allowed (e.pushParameters p).state
        DecisionState.on = false)
    (hOff : (e.pushParameters p).ACOut_notallowed (e.pushParameters p).state
        DecisionState.off = false) :
    (e.update_parameters p).fst.state = e.state
    ∧ (e.update_parameters p).snd = [] := by
  unfold ACOut2Override.update_parameters ACOut2Override.poll
  rw [hOn, hOff]
  simp

/-- An `off` engine with a one-sample window, used to exercise the hold-state
case: with grid present and every threshold exceeded, neither guard fires. -/
def holdEngine : ACOut2Override :=
  { settings := ⟨-250, 50, 1, 60, 3, 1000⟩
    currentParameters := ⟨0, 0, 1⟩
    dcPowerBuffer := [0]
    state := DecisionState.off }

theorem update_holds_state_when_no_guard_witness :
    (holdEngine.update_parameters ⟨100, 2000, 240⟩).fst.state
        = holdEngine.state
    ∧ (holdEngine.update_parameters ⟨100, 2000, 240⟩).snd = [] :=
  update_holds_state_when_no_guard holdEngine ⟨100, 2000, 240⟩
    (by
      norm_num [holdEngine, ACOut2Override.pushParameters,
        ACOut2Override.ACOut_allowed, dequeAppend, mean]
      decide)
    (by norm_num [holdEngine, ACOut2Override.pushParameters,
      ACOut2Override.ACOut_notallowed, dequeAppend, mean])

theorem update_off_grid_step (e : ACOut2Override)
    (p : ACOut2OverrideParameters) (hoff : e.state = DecisionState.off)
    (hac : p.ACSource = 240) :
    (e.update_parameters p).fst.state = DecisionState.off := by
  have hOn : (e.pushParameters p).ACOut_allowed (e.pushParameters p).state
      DecisionState.on = false := by
    rw [pushParameters_state, hoff]
    unfold ACOut2Override.ACOut_allowed
    simp [hac]
  unfold ACOut2Override.update_parameters ACOut2Override.poll
  rw [hOn]
  cases hg2 : (e.pushParameters p).ACOut_notallowed
      (e.pushParameters p).state DecisionState.off <;> simp [hg2, hoff]

/-- C5: the grid veto is an invariant — an engine in state `off` stays `off`
under any finite sequence of updates whose snapshots all carry
`ACSource = 240`, whatever their `SOC` and `DCPower` values. -/
theorem grid_veto_invariant (e : ACOut2Override)
    (ps : List ACOut2OverrideParameters)
    (hoff : e.state = DecisionState.off)
    (hgrid : ∀ p ∈ ps, p.ACSource = 240) :
    (e.run ps).state = DecisionState.off := by
  induction ps generalizing e with
  | nil => simpa [ACOut2Override.run] using hoff
  | cons p ps ih =>
      have h1 := update_off_grid_step e p hoff (hgrid p (List.mem_cons_self p ps))
      have h2 : ∀ q ∈ ps, q.ACSource = 240 :=
        fun q hq => hgrid q (List.mem_cons_of_mem p hq)
      simpa [ACOut2Override.run, List.foldl_cons] using
        ih (e.update_parameters p).fst h1 h2

theorem grid_veto_invariant_witness :
    (holdEngine.run [⟨100, 5000, 240⟩, ⟨90, 5000, 240⟩]).state
      = DecisionState.off :=
  grid_veto_invariant holdEngine [⟨100, 5000, 240⟩, ⟨90, 5000, 240⟩] rfl
    (by decide)

/-- An `off` engine with the repository's thresholds
(`MaxDCPower = -250`, `MaxDCPowerSOC = 50`, `MinSOC = 60`,
`SOCHisteresis = 3`, `DCPowerHisteresis = 1000`) and a one-sample window
holding the construction sentinel. -/
def bandEngine : ACOut2Override :=
  { settings := ⟨-250, 50, 1, 60, 3, 1000⟩
    currentParameters := ⟨0, 0, 1⟩
    dcPowerBuffer := [sentinelPower]
    state := DecisionState.off }

/-- C8 counterexample: starting `off` with `MaxDCPowerSOC = 50`,
`SOCHisteresis = 3`, `MinSOC = 60`, the update `(SOC 61, DCPower 1000,
ACSource 1)` transitions to `on` (mean `1000 > MaxDCPower +
DCPowerHisteresis = 750`, `61 > 53`), but the subsequent update
`(SOC 58, DCPower 1000, ACSource 1)` leaves the engine `on`, not `off`:
the stay-`on` check `avgPower > MaxDCPower ∧ SOC > MaxDCPowerSOC` passes
with mean `1000 > -250` and `58 > 50`, so the claimed unconditional
transition back to `off` at `SOC = 58` does not happen. -/
theorem stay_on_at_soc58_counterexample :
    (bandEngine.update_parameters ⟨61, 1000, 1⟩).fst.state = DecisionState.on
    ∧ ((bandEngine.update_parameters ⟨61, 1000, 1⟩).fst.update_parameters
        ⟨58, 1000, 1⟩).fst.state = DecisionState.on := by
  constructor <;>
    norm_num [bandEngine, ACOut2Override.update_parameters,
      ACOut2Override.pushParameters, ACOut2Override.poll,
      ACOut2Override.ACOut_allowed, ACOut2Override.ACOut_notallowed,
      dequeAppend, mean, sentinelPower]

/-- C8 amended: with `MaxDCPowerSOC = 50`, `SOCHisteresis = 3`,
`MinSOC = 60`, an `off` engine updated with `SOC = 61`, `ACSource ≠ 240`
and post-push window mean above `MaxDCPower + DCPowerHisteresis`
transitions to `on`; the subsequent update with `SOC = 58` transitions back
to `off` provided the new window mean is at most `MaxDCPower` — the SOC
drop alone does not force the change, because the stay-`on` check also
passes whenever `avgPower > MaxDCPower ∧ SOC > MaxDCPowerSOC`. -/
theorem hysteresis_band_boundary (e : ACOut2Override)
    (p1 p2 : ACOut2OverrideParameters)
    (hsoc : e.settings.MaxDCPowerSOC = 50)
    (hsh : e.settings.SOCHisteresis = 3)
    (hmin : e.settings.MinSOC = 60)
    (hoff : e.state = DecisionState.off)
    (h61 : p1.SOC = 61)
    (hac : ¬ p1.ACSource = 240)
    (havg : mean (e.pushParameters p1).dcPowerBuffer
        > e.settings.MaxDCPower + e.settings.DCPowerHisteresis)
    (h58 : p2.SOC = 58)
    (havg2 : mean ((e.update_parameters p1).fst.pushParameters
          p2).dcPowerBuffer
        ≤ e.settings.MaxDCPower) :
    (e.update_parameters p1).fst.state = DecisionState.on
    ∧ ((e.update_parameters p1).fst.update_parameters p2).fst.state
        = DecisionState.off := by
  have hs1 : (e.update_parameters p1).fst.settings = e.settings :=
    update_parameters_settings e p1
  have step_on : ∀ (E : ACOut2Override) (p : ACOut2OverrideParameters),
      (E.pushParameters p).ACOut_allowed (E.pushParameters p).state
          DecisionState.on = true →
      (E.update_parameters p).fst.state = DecisionState.on := by
    intro E p hOn
    unfold ACOut2Override.update_parameters ACOut2Override.poll
    rw [hOn]
    simp
  have step_off : ∀ (E : ACOut2Override) (p : ACOut2OverrideParameters),
      (E.pushParameters p).ACOut_allowed (E.pushParameters p).state
          DecisionState.on = false →
      (E.pushParameters p).ACOut_notallowed (E.pushParameters p).state
          DecisionState.off = true →
      (E.update_parameters p).fst.state = DecisionState.off := by
    intro E p hOn hOff
    unfold ACOut2Override.update_parameters ACOut2Override.poll
    rw [hOn, hOff]
    simp
  have hOn1 : (e.pushParameters p1).ACOut_allowed
      (e.pushParameters p1).state DecisionState.on = true := by
    unfold ACOut2Override.ACOut_allowed
    simp only [pushParameters_state, pushParameters_settings,
      pushParameters_currentParameters, hoff]
    rw [if_neg (by simp), if_neg hac,
      if_pos ⟨havg, by rw [h61, hsoc, hsh]; norm_num⟩]
  have hcon1 : (e.update_parameters p1).fst.state = DecisionState.on :=
    step_on e p1 hOn1
  have hOn2 : ((e.update_parameters p1).fst.pushParameters
      p2).ACOut_allowed
      ((e.update_parameters p1).fst.pushParameters p2).state
      DecisionState.on = false := by
    unfold ACOut2Override.ACOut_allowed
    simp only [pushParameters_state, pushParameters_settings,
      pushParameters_currentParameters, hcon1, hs1]
    rw [if_pos trivial, if_neg (fun h => absurd h.1 (not_lt.mpr havg2))]
    simp only [decide_eq_false_iff_not, not_lt]
    rw [h58, hmin]
    norm_num
  have hOff2 : ((e.update_parameters p1).fst.pushParameters
      p2).ACOut_notallowed
      ((e.update_parameters p1).fst.pushParameters p2).state
      DecisionState.off = true := by
    unfold ACOut2Override.ACOut_notallowed
    simp only [pushParameters_state, pushParameters_settings,
      pushParameters_currentParameters, hcon1, hs1]
    rw [if_neg (by simp), if_pos (Or.inl havg2)]
  exact ⟨hcon1, step_off (e.update_parameters p1).fst p2 hOn2 hOff2⟩

theorem hysteresis_band_boundary_witness :
    (bandEngine.update_parameters ⟨61, 1000, 1⟩).fst.state = DecisionState.on
    ∧ ((bandEngine.update_parameters ⟨61, 1000, 1⟩).fst.update_parameters
        ⟨58, -1000, 1⟩).fst.state = DecisionState.off :=
  hysteresis_band_boundary bandEngine ⟨61, 1000, 1⟩ ⟨58, -1000, 1⟩ rfl rfl
    rfl rfl rfl (by decide)
    (by norm_num [bandEngine, ACOut2Override.pushParameters, dequeAppend,
      mean, sentinelPower])
    rfl
    (by norm_num [bandEngine, ACOut2Override.update_parameters,
      ACOut2Override.pushParameters, ACOut2Override.poll,
      ACOut2Override.ACOut_allowed, ACOut2Override.ACOut_notallowed,
      dequeAppend, mean, sentinelPower])

/-- C9: immediately after a successful construction the window holds exactly
`DCPowerPeriodCount` copies of the sentinel `-99999.9`; each
`update_parameters` call preserves the window length (the push appends the
new sample and evicts the oldest entry); and with `DCPowerPeriodCount = 3`
the window mean after exactly three updates is the arithmetic mean of the
three `DCPower` values, all sentinels evicted. -/
theorem window_invariant (s : ACOut2OverrideSettings)
    (hcount : 1 ≤ s.DCPowerPeriodCount) :
    (∀ e out, ACOut2Override.init s = Except.ok (e, out) →
      e.dcPowerBuffer
        = List.replicate s.DCPowerPeriodCount.toNat sentinelPower)
    ∧ (∀ (e : ACOut2Override) (p : ACOut2OverrideParameters),
        e.settings = s →
        e.dcPowerBuffer.length = s.DCPowerPeriodCount.toNat →
        (e.update_parameters p).fst.dcPowerBuffer.length
          = s.DCPowerPeriodCount.toNat)
    ∧ (s.DCPowerPeriodCount = 3 →
        ∀ e out p1 p2 p3, ACOut2Override.init s = Except.ok (e, out) →
          mean (e.run [p1, p2, p3]).dcPowerBuffer
            = (p1.DCPower + p2.DCPower + p3.DCPower) / 3) := by
  refine ⟨?_, ?_, ?_⟩
  · intro e out h
    unfold ACOut2Override.init at h
    rw [if_neg (by omega)] at h
    simp only [Except.ok.injEq, Prod.mk.injEq] at h
    rw [← h.1]
  · intro e p he hlen
    rw [update_parameters_dcPowerBuffer, he]
    exact dequeAppend_length _ _ _ hlen
  · intro h3 e out p1 p2 p3 hinit
    unfold ACOut2Override.init at hinit
    rw [if_neg (by omega)] at hinit
    simp only [Except.ok.injEq, Prod.mk.injEq] at hinit
    obtain ⟨he, -⟩ := hinit
    have hset : e.settings = s := by rw [← he]
    have hbuf : e.dcPowerBuffer
        = [sentinelPower, sentinelPower, sentinelPower] := by
      rw [← he]
      show List.replicate s.DCPowerPeriodCount.toNat sentinelPower = _
      rw [h3]
      rfl
    have hs1 : (e.update_parameters p1).fst.settings = s := by
      rw [update_parameters_settings, hset]
    have hs2 : ((e.update_parameters p1).fst.update_parameters
        p2).fst.settings = s := by
      rw [update_parameters_settings, hs1]
    have hb1 : (e.update_parameters p1).fst.dcPowerBuffer
        = [sentinelPower, sentinelPower, p1.DCPower] := by
      rw [update_parameters_dcPowerBuffer, hset, hbuf, h3]
      norm_num [dequeAppend, Int.toNat_ofNat]
      rfl
    have hb2 : ((e.update_parameters p1).fst.update_parameters
        p2).fst.dcPowerBuffer
        = [sentinelPower, p1.DCPower, p2.DCPower] := by
      rw [update_parameters_dcPowerBuffer, hs1, hb1, h3]
      norm_num [dequeAppend, Int.toNat_ofNat]
      rfl
    have hb3 : (((e.update_parameters p1).fst.update_parameters
        p2).fst.update_parameters p3).fst.dcPowerBuffer
        = [p1.DCPower, p2.DCPower, p3.DCPower] := by
      rw [update_parameters_dcPowerBuffer, hs2, hb2, h3]
      norm_num [dequeAppend, Int.toNat_ofNat]
      rfl
    have hrun : e.run [p1, p2, p3]
        = (((e.update_parameters p1).fst.update_parameters
            p2).fst.update_parameters p3).fst := rfl
    rw [hrun, hb3]
    norm_num [mean]
    ring

theorem window_invariant_witness :
    mean ((exampleEngine.run [⟨65, 1, 1⟩, ⟨65, 2, 1⟩,
        ⟨65, 3, 1⟩]).dcPowerBuffer) = 2 := by
  have h := (window_invariant exampleSettings (by decide)).2.2 rfl
    exampleEngine [false] ⟨65, 1, 1⟩ ⟨65, 2, 1⟩ ⟨65, 3, 1⟩ rfl
  rw [h]
  norm_num

/-- C10: in state `on` the guard evaluation never consults `ACSource` — two
updates whose snapshots agree on `SOC` and `DCPower` and differ only in
`ACSource` produce the same target state and the same relay-callback trace;
in particular `ACSource` flipping to the grid code `240` cannot by itself
drive an `on → off` transition, the grid veto being consulted only on the
`off → on` change check. -/
theorem acsource_noninterference (e : ACOut2Override)
    (p1 p2 : ACOut2OverrideParameters)
    (hon : e.state = DecisionState.on)
    (hsoc : p1.SOC = p2.SOC) (hdc : p1.DCPower = p2.DCPower) :
    (e.update_parameters p1).fst.state = (e.update_parameters p2).fst.state
    ∧ (e.update_parameters p1).snd = (e.update_parameters p2).snd := by
  obtain ⟨s1, d1, a1⟩ := p1
  obtain ⟨s2, d2, a2⟩ := p2
  dsimp only at hsoc hdc
  subst hsoc hdc
  have hg1 :
      (e.pushParameters ⟨s1, d1, a1⟩).ACOut_allowed
          (e.pushParameters ⟨s1, d1, a1⟩).state DecisionState.on
        = (e.pushParameters ⟨s1, d1, a2⟩).ACOut_allowed
            (e.pushParameters ⟨s1, d1, a2⟩).state DecisionState.on := by
    rw [ACOut_allowed_eq_spec (e.pushParameters ⟨s1, d1, a1⟩),
      ACOut_allowed_eq_spec (e.pushParameters ⟨s1, d1, a2⟩)]
    simp only [pushParameters_settings, pushParameters_state,
      pushParameters_currentParameters, pushParameters_dcPowerBuffer, hon]
    rfl
  have hg2 :
      (e.pushParameters ⟨s1, d1, a1⟩).ACOut_notallowed
          (e.pushParameters ⟨s1, d1, a1⟩).state DecisionState.off
        = (e.pushParameters ⟨s1, d1, a2⟩).ACOut_notallowed
            (e.pushParameters ⟨s1, d1, a2⟩).state DecisionState.off := by
    rw [ACOut_notallowed_eq_spec (e.pushParameters ⟨s1, d1, a1⟩),
      ACOut_notallowed_eq_spec (e.pushParameters ⟨s1, d1, a2⟩)]
    simp only [pushParameters_settings, pushParameters_state,
      pushParameters_currentParameters, pushParameters_dcPowerBuffer, hon]
    rfl
  unfold ACOut2Override.update_parameters ACOut2Override.poll
  rw [hg1, hg2]
  cases hc1 : (e.pushParameters ⟨s1, d1, a2⟩).ACOut_allowed
      (e.pushParameters ⟨s1, d1, a2⟩).state DecisionState.on
  · cases hc2 : (e.pushParameters ⟨s1, d1, a2⟩).ACOut_notallowed
        (e.pushParameters ⟨s1, d1, a2⟩).state DecisionState.off
    · simp
    · simp [hon]
  · simp [hon]

/-- An engine currently in state `on`, used to exercise `ACSource`
noninterference. -/
def onEngine : ACOut2Override :=
  { settings := ⟨-250, 50, 1, 60, 3, 1000⟩
    currentParameters := ⟨65, 0, 1⟩
    dcPowerBuffer := [0]
    state := DecisionState.on }

theorem acsource_noninterference_witness :
    (onEngine.update_parameters ⟨70, 100, 1⟩).fst.state
        = (onEngine.update_parameters ⟨70, 100, 240⟩).fst.state
    ∧ (onEngine.update_parameters ⟨70, 100, 1⟩).snd
        = (onEngine.update_parameters ⟨70, 100, 240⟩).snd :=
  acsource_noninterference onEngine ⟨70, 100, 1⟩ ⟨70, 100, 240⟩ rfl rfl rfl
